import Mathlib

/-!
Verification of the swipe-gesture classifier from
`react-native-swipe-gestures` (source: `src/index.d.ts`, the
`GestureHandler` implementation section).

Numbers are embedded as rationals (`ℚ`).  A second model with an explicit
NaN value (`JSNumber := Option ℚ`, `none` = NaN) captures the IEEE rule
that every comparison involving NaN is false and `Math.abs NaN = NaN`;
it is used for the claims about malformed inputs.
-/

/-- JavaScript `Math.abs` on a (non-NaN) number: negate exactly the
negative inputs. -/
def mathAbs (x : ℚ) : ℚ := if x < 0 then -x else x

/-- The four swipe direction labels of the source
(`type swipeDirections = 'SWIPE_UP' | 'SWIPE_DOWN' | 'SWIPE_LEFT' | 'SWIPE_RIGHT'`). -/
inductive SwipeDirections where
  | SWIPE_UP
  | SWIPE_DOWN
  | SWIPE_LEFT
  | SWIPE_RIGHT
deriving DecidableEq, Repr

/-- The fully-populated configuration record (`interface SwipeConfig`). -/
structure SwipeConfig where
  velocityThreshold : ℚ
  directionalOffsetThreshold : ℚ
  gestureIsClickThreshold : ℚ
  needVerticalScroll : Bool
  scrollVerticalThreshold : ℚ
  swipeEnabled : Bool
deriving DecidableEq, Repr

/-- Caller-supplied overrides: the TS `config` prop, whose static type lets
every field of `SwipeConfig` be absent (`none` = the field is not given). -/
structure OptionalSwipeConfig where
  velocityThreshold : Option ℚ := none
  directionalOffsetThreshold : Option ℚ := none
  gestureIsClickThreshold : Option ℚ := none
  needVerticalScroll : Option Bool := none
  scrollVerticalThreshold : Option ℚ := none
  swipeEnabled : Option Bool := none
deriving DecidableEq, Repr

/-- `const defaultSwipeConfig: SwipeConfig = { velocityThreshold: 0.3,
directionalOffsetThreshold: 80, gestureIsClickThreshold: 5,
needVerticalScroll: false, scrollVerticalThreshold: 5, swipeEnabled: true }`. -/
def defaultSwipeConfig : SwipeConfig :=
  { velocityThreshold := 3 / 10
    directionalOffsetThreshold := 80
    gestureIsClickThreshold := 5
    needVerticalScroll := false
    scrollVerticalThreshold := 5
    swipeEnabled := true }

/-- Object spread `{...base, ...overrides}`: a field present in the
overrides wins, otherwise the base field is kept. -/
def mergeConfig (base : SwipeConfig) (overrides : OptionalSwipeConfig) : SwipeConfig :=
  { velocityThreshold := overrides.velocityThreshold.getD base.velocityThreshold
    directionalOffsetThreshold :=
      overrides.directionalOffsetThreshold.getD base.directionalOffsetThreshold
    gestureIsClickThreshold :=
      overrides.gestureIsClickThreshold.getD base.gestureIsClickThreshold
    needVerticalScroll := overrides.needVerticalScroll.getD base.needVerticalScroll
    scrollVerticalThreshold :=
      overrides.scrollVerticalThreshold.getD base.scrollVerticalThreshold
    swipeEnabled := overrides.swipeEnabled.getD base.swipeEnabled }

/-- The React-Native `PanResponderGestureState` record, with all of its
numeric fields, so that facts about which fields the classifier reads are
meaningful. -/
structure GestureState where
  stateID : ℚ
  moveX : ℚ
  moveY : ℚ
  x0 : ℚ
  y0 : ℚ
  dx : ℚ
  dy : ℚ
  vx : ℚ
  vy : ℚ
  numberActiveTouches : ℚ
deriving DecidableEq, Repr

/-- The native event payload: only the active-touches array is consulted
(`evt.nativeEvent.touches.length`). -/
structure NativeEvent where
  touches : List Unit
deriving DecidableEq, Repr

/-- The `GestureResponderEvent` handed to the responder callbacks. -/
structure GestureResponderEvent where
  nativeEvent : NativeEvent
deriving DecidableEq, Repr

/-- The props of `GestureHandler` (`interface GestureHandlerProps`); for
each optional callback only its presence matters to the control flow, so a
callback is modelled by the Boolean "the caller supplied it". -/
structure GestureHandlerProps where
  config : OptionalSwipeConfig
  swipeEnabled : Option Bool
  responderTerminationRequest : Option Bool
  onSwipe : Bool
  onSwipeUp : Bool
  onSwipeDown : Bool
  onSwipeLeft : Bool
  onSwipeRight : Bool
deriving DecidableEq, Repr

/-- `const _swipeConfig = {...defaultSwipeConfig, ...props.config}`. -/
def _swipeConfig (props : GestureHandlerProps) : SwipeConfig :=
  mergeConfig defaultSwipeConfig props.config

/-- `function _isValidSwipe(velocity, velocityThreshold, directionalOffset,
directionalOffsetThreshold) { return Math.abs(velocity) > velocityThreshold
&& Math.abs(directionalOffset) < directionalOffsetThreshold; }`. -/
def _isValidSwipe (velocity velocityThreshold directionalOffset
    directionalOffsetThreshold : ℚ) : Bool :=
  decide (mathAbs velocity > velocityThreshold) &&
    decide (mathAbs directionalOffset < directionalOffsetThreshold)

/-- `function _isValidHorizontalSwipe(gestureState)`: reads `vx`, `dy`, and
takes both thresholds from `defaultSwipeConfig` (not from `_swipeConfig`),
exactly as the source does. -/
def _isValidHorizontalSwipe (gestureState : GestureState) : Bool :=
  _isValidSwipe gestureState.vx defaultSwipeConfig.velocityThreshold
    gestureState.dy defaultSwipeConfig.directionalOffsetThreshold

/-- `function _isValidVerticalSwipe(gestureState)`: reads `vy`, `dx`, and
takes both thresholds from `defaultSwipeConfig` (not from `_swipeConfig`),
exactly as the source does. -/
def _isValidVerticalSwipe (gestureState : GestureState) : Bool :=
  _isValidSwipe gestureState.vy defaultSwipeConfig.velocityThreshold
    gestureState.dx defaultSwipeConfig.directionalOffsetThreshold

/-- `function _getSwipeDirection(gestureState)`: dominant-axis dispatch
over the two validity checks; `null` is `none`. -/
def _getSwipeDirection (gestureState : GestureState) : Option SwipeDirections :=
  let dx := gestureState.dx
  let dy := gestureState.dy
  let absDx := mathAbs dx
  let absDy := mathAbs dy
  let validHorizontal := _isValidHorizontalSwipe gestureState
  let validVertical := _isValidVerticalSwipe gestureState
  let horizontalDirection :=
    if dx > 0 then SwipeDirections.SWIPE_RIGHT else SwipeDirections.SWIPE_LEFT
  let verticalDirection :=
    if dy > 0 then SwipeDirections.SWIPE_DOWN else SwipeDirections.SWIPE_UP
  if absDx > absDy then
    if validHorizontal then some horizontalDirection
    else if validVertical then some verticalDirection
    else none
  else
    if validVertical then some verticalDirection
    else if validHorizontal then some horizontalDirection
    else none

/-- `function _gestureIsClick(gestureState) { return Math.abs(gestureState.dx)
< _swipeConfig.gestureIsClickThreshold && Math.abs(gestureState.dy) <
_swipeConfig.gestureIsClickThreshold; }`. -/
def _gestureIsClick (props : GestureHandlerProps) (gestureState : GestureState) : Bool :=
  decide (mathAbs gestureState.dx < (_swipeConfig props).gestureIsClickThreshold) &&
    decide (mathAbs gestureState.dy < (_swipeConfig props).gestureIsClickThreshold)

/-- `function _handleShouldSetPanResponder(evt, gestureState)`: declines
while vertical scrolling is required and `dy` leaves the scroll band, else
claims iff `!!props.swipeEnabled`, a single active touch, and not a click. -/
def _handleShouldSetPanResponder (props : GestureHandlerProps)
    (evt : GestureResponderEvent) (gestureState : GestureState) : Bool :=
  if (_swipeConfig props).needVerticalScroll &&
      (decide (gestureState.dy > (_swipeConfig props).scrollVerticalThreshold) ||
        decide (gestureState.dy < -(_swipeConfig props).scrollVerticalThreshold)) then
    false
  else
    props.swipeEnabled.getD false &&
      decide (evt.nativeEvent.touches.length = 1) &&
      !(_gestureIsClick props gestureState)

/-- One observed callback invocation, carrying the arguments the source
passes; `σ` is the type of the gesture state handed through. -/
inductive CallbackCall (σ : Type) where
  | onSwipe (direction : SwipeDirections) (state : σ)
  | onSwipeUp (state : σ)
  | onSwipeDown (state : σ)
  | onSwipeLeft (state : σ)
  | onSwipeRight (state : σ)
deriving DecidableEq, Repr

/-- `function _triggerSwipeHandlers(swipeDirection, gestureState)`: calls
`onSwipe` when present, then switches on the direction and calls the
matching specific handler when present.  The result is the ordered list of
invocations. -/
def _triggerSwipeHandlers {σ : Type} (props : GestureHandlerProps)
    (swipeDirection : SwipeDirections) (gestureState : σ) : List (CallbackCall σ) :=
  (if props.onSwipe then [CallbackCall.onSwipe swipeDirection gestureState] else []) ++
    (match swipeDirection with
      | SwipeDirections.SWIPE_LEFT =>
          if props.onSwipeLeft then [CallbackCall.onSwipeLeft gestureState] else []
      | SwipeDirections.SWIPE_RIGHT =>
          if props.onSwipeRight then [CallbackCall.onSwipeRight gestureState] else []
      | SwipeDirections.SWIPE_UP =>
          if props.onSwipeUp then [CallbackCall.onSwipeUp gestureState] else []
      | SwipeDirections.SWIPE_DOWN =>
          if props.onSwipeDown then [CallbackCall.onSwipeDown gestureState] else [])

/-- `function _handlePanResponderEnd(evt, gestureState)`: classify, return
silently on `null`, else trigger the handlers. -/
def _handlePanResponderEnd (props : GestureHandlerProps)
    (gestureState : GestureState) : List (CallbackCall GestureState) :=
  match _getSwipeDirection gestureState with
  | none => []
  | some swipedir => _triggerSwipeHandlers props swipedir gestureState

/-- A gesture state with the given displacements and velocities and every
other field zero (used for concrete evaluations). -/
def mkState (dx dy vx vy : ℚ) : GestureState :=
  { stateID := 0, moveX := 0, moveY := 0, x0 := 0, y0 := 0
    dx := dx, dy := dy, vx := vx, vy := vy, numberActiveTouches := 1 }

/-- Props with no config overrides and no callbacks supplied. -/
def emptyProps : GestureHandlerProps :=
  { config := {}
    swipeEnabled := none
    responderTerminationRequest := none
    onSwipe := false, onSwipeUp := false, onSwipeDown := false
    onSwipeLeft := false, onSwipeRight := false }

/-- An event whose native payload has exactly one active touch. -/
def oneTouchEvent : GestureResponderEvent := { nativeEvent := { touches := [()] } }

/-- A JavaScript number in the model that includes NaN: `none` is NaN,
`some q` an ordinary value. -/
abbrev JSNumber : Type := Option ℚ

/-- `Math.abs` with NaN propagation (`Math.abs NaN = NaN`). -/
def jsAbs (x : JSNumber) : JSNumber := x.map mathAbs

/-- IEEE-style `>`: false whenever either operand is NaN. -/
def jsGt : JSNumber → JSNumber → Bool
  | some a, some b => decide (a > b)
  | _, _ => false

/-- IEEE-style `<`: false whenever either operand is NaN. -/
def jsLt : JSNumber → JSNumber → Bool
  | some a, some b => decide (a < b)
  | _, _ => false

/-- The gesture state in the NaN-aware model: each numeric field may be
NaN. -/
structure JSGestureState where
  stateID : JSNumber
  moveX : JSNumber
  moveY : JSNumber
  x0 : JSNumber
  y0 : JSNumber
  dx : JSNumber
  dy : JSNumber
  vx : JSNumber
  vy : JSNumber
  numberActiveTouches : JSNumber
deriving DecidableEq, Repr

/-- `_isValidSwipe` re-read in the NaN-aware model: the same two strict
comparisons, each false when it touches NaN. -/
def jsIsValidSwipe (velocity velocityThreshold directionalOffset
    directionalOffsetThreshold : JSNumber) : Bool :=
  jsGt (jsAbs velocity) velocityThreshold &&
    jsLt (jsAbs directionalOffset) directionalOffsetThreshold

/-- `_isValidHorizontalSwipe` in the NaN-aware model (thresholds still come
from `defaultSwipeConfig` and are ordinary numbers). -/
def jsIsValidHorizontalSwipe (gestureState : JSGestureState) : Bool :=
  jsIsValidSwipe gestureState.vx (some defaultSwipeConfig.velocityThreshold)
    gestureState.dy (some defaultSwipeConfig.directionalOffsetThreshold)

/-- `_isValidVerticalSwipe` in the NaN-aware model. -/
def jsIsValidVerticalSwipe (gestureState : JSGestureState) : Bool :=
  jsIsValidSwipe gestureState.vy (some defaultSwipeConfig.velocityThreshold)
    gestureState.dx (some defaultSwipeConfig.directionalOffsetThreshold)

/-- `_getSwipeDirection` in the NaN-aware model: identical structure, with
every numeric comparison replaced by its IEEE counterpart. -/
def jsGetSwipeDirection (gestureState : JSGestureState) : Option SwipeDirections :=
  let dx := gestureState.dx
  let dy := gestureState.dy
  let absDx := jsAbs dx
  let absDy := jsAbs dy
  let validHorizontal := jsIsValidHorizontalSwipe gestureState
  let validVertical := jsIsValidVerticalSwipe gestureState
  let horizontalDirection :=
    if jsGt dx (some 0) then SwipeDirections.SWIPE_RIGHT else SwipeDirections.SWIPE_LEFT
  let verticalDirection :=
    if jsGt dy (some 0) then SwipeDirections.SWIPE_DOWN else SwipeDirections.SWIPE_UP
  if jsGt absDx absDy then
    if validHorizontal then some horizontalDirection
    else if validVertical then some verticalDirection
    else none
  else
    if validVertical then some verticalDirection
    else if validHorizontal then some horizontalDirection
    else none

/-- `_handlePanResponderEnd` in the NaN-aware model. -/
def jsHandlePanResponderEnd (props : GestureHandlerProps)
    (gestureState : JSGestureState) : List (CallbackCall JSGestureState) :=
  match jsGetSwipeDirection gestureState with
  | none => []
  | some swipedir => _triggerSwipeHandlers props swipedir gestureState

/-- A NaN-model gesture state with the given displacements and velocities
and every other field zero. -/
def jsMkState (dx dy vx vy : JSNumber) : JSGestureState :=
  { stateID := some 0, moveX := some 0, moveY := some 0, x0 := some 0, y0 := some 0
    dx := dx, dy := dy, vx := vx, vy := vy, numberActiveTouches := some 1 }

/-- Props whose `config` overrides `velocityThreshold` to `1`. -/
def velocityOverrideProps : GestureHandlerProps :=
  { emptyProps with config := { velocityThreshold := some 1 } }

/-- Props whose `config` sets `needVerticalScroll`. -/
def scrollProps : GestureHandlerProps :=
  { emptyProps with config := { needVerticalScroll := some true } }

/-- Props supplying every callback. -/
def allCallbacksProps : GestureHandlerProps :=
  { emptyProps with
    onSwipe := true, onSwipeUp := true, onSwipeDown := true
    onSwipeLeft := true, onSwipeRight := true }

/-- The gesture of the spec's cross-axis fallback example:
`dx=10, dy=100, vx=0.5, vy=0.1`. -/
def fallbackState : GestureState := mkState 10 100 (1 / 2) (1 / 10)

/-- A clearly-non-click horizontal drag: `dx=100, vx=0.5`. -/
def swipeState : GestureState := mkState 100 0 (1 / 2) 0

/-- A NaN-model state whose `dx` is NaN while the horizontal axis is
otherwise a valid swipe (`vx=1`, `dy=0`). -/
def nanDxState : JSGestureState := jsMkState none (some 0) (some 1) (some 0)

/-- Bridge between the embedded `Math.abs` and the mathematical absolute
value on `ℚ`. -/
theorem mathAbs_eq_abs (x : ℚ) : mathAbs x = |x| := by
  rcases lt_or_ge x 0 with h | h
  · simp [mathAbs, h, abs_of_neg h]
  · simp [mathAbs, not_lt.mpr h, abs_of_nonneg h]

/-- Claim C4: the classifier follows the dominant-axis tie-break.  If
`|dx| > |dy|` it returns the horizontal direction when horizontal validity
holds, else the vertical direction when vertical validity holds, else none;
if `|dy| ≥ |dx|` it returns the vertical direction when valid, else the
horizontal direction when valid, else none; the horizontal direction is
RIGHT iff `dx > 0` (else LEFT) and the vertical direction is DOWN iff
`dy > 0` (else UP). -/
theorem getSwipeDirection_dominant_axis (s : GestureState) :
    (|s.dx| > |s.dy| → _isValidHorizontalSwipe s = true →
      _getSwipeDirection s = some (if s.dx > 0 then SwipeDirections.SWIPE_RIGHT
        else SwipeDirections.SWIPE_LEFT)) ∧
    (|s.dx| > |s.dy| → _isValidHorizontalSwipe s = false →
      _isValidVerticalSwipe s = true →
      _getSwipeDirection s = some (if s.dy > 0 then SwipeDirections.SWIPE_DOWN
        else SwipeDirections.SWIPE_UP)) ∧
    (|s.dx| > |s.dy| → _isValidHorizontalSwipe s = false →
      _isValidVerticalSwipe s = false → _getSwipeDirection s = none) ∧
    (|s.dy| ≥ |s.dx| → _isValidVerticalSwipe s = true →
      _getSwipeDirection s = some (if s.dy > 0 then SwipeDirections.SWIPE_DOWN
        else SwipeDirections.SWIPE_UP)) ∧
    (|s.dy| ≥ |s.dx| → _isValidVerticalSwipe s = false →
      _isValidHorizontalSwipe s = true →
      _getSwipeDirection s = some (if s.dx > 0 then SwipeDirections.SWIPE_RIGHT
        else SwipeDirections.SWIPE_LEFT)) ∧
    (|s.dy| ≥ |s.dx| → _isValidVerticalSwipe s = false →
      _isValidHorizontalSwipe s = false → _getSwipeDirection s = none) := by
  refine ⟨?_, ?_, ?_, ?_, ?_, ?_⟩ <;>
    simp only [← mathAbs_eq_abs, ge_iff_le, ← not_lt] <;>
    intro h1 h2 <;>
    first
      | (intro h3; simp [_getSwipeDirection, h1, h2, h3])
      | simp [_getSwipeDirection, h1, h2]

/-- Witness for C4 at `dx=100, dy=10, vx=0.5, vy=0`: the horizontal axis
dominates, is valid, and `SWIPE_RIGHT` is returned. -/
theorem getSwipeDirection_dominant_axis_witness :
    _getSwipeDirection (mkState 100 10 (1 / 2) 0) =
      some SwipeDirections.SWIPE_RIGHT := by
  have h := (getSwipeDirection_dominant_axis (mkState 100 10 (1 / 2) 0)).1
    (by norm_num [mkState])
    (by norm_num [_isValidHorizontalSwipe, _isValidSwipe, mkState,
      defaultSwipeConfig, mathAbs])
  simpa [mkState] using h

/-- Claim C8: `_gestureIsClick` is true iff both displacements are strictly
below the merged configuration's `gestureIsClickThreshold`, and the merged
threshold is the caller's override when given, else the default. -/
theorem gestureIsClick_merged_threshold (props : GestureHandlerProps)
    (s : GestureState) :
    (_gestureIsClick props s = true ↔
      (|s.dx| < (_swipeConfig props).gestureIsClickThreshold ∧
        |s.dy| < (_swipeConfig props).gestureIsClickThreshold)) ∧
    (_swipeConfig props).gestureIsClickThreshold =
      props.config.gestureIsClickThreshold.getD
        defaultSwipeConfig.gestureIsClickThreshold := by
  constructor
  · simp [_gestureIsClick, mathAbs_eq_abs]
  · rfl

/-- Claim C10: the classification result depends only on the `dx`, `dy`,
`vx`, `vy` fields of the gesture state; all other fields are never read. -/
theorem classification_reads_only_displacement_and_velocity
    (s1 s2 : GestureState) (hdx : s1.dx = s2.dx) (hdy : s1.dy = s2.dy)
    (hvx : s1.vx = s2.vx) (hvy : s1.vy = s2.vy) :
    _getSwipeDirection s1 = _getSwipeDirection s2 := by
  simp only [_getSwipeDirection, _isValidHorizontalSwipe, _isValidVerticalSwipe,
    _isValidSwipe, hdx, hdy, hvx, hvy]

/-- Witness for C10: two states agreeing on `dx, dy, vx, vy` but differing
in `moveX`, `x0` and `numberActiveTouches` classify identically. -/
theorem classification_reads_only_displacement_and_velocity_witness :
    _getSwipeDirection (mkState 100 10 (1 / 2) 0) =
      _getSwipeDirection
        { mkState 100 10 (1 / 2) 0 with moveX := 7, x0 := 9, numberActiveTouches := 3 } :=
  classification_reads_only_displacement_and_velocity _ _ rfl rfl rfl rfl

/-- Claim C5: on gesture end, a classified direction `d` first triggers the
generic `onSwipe` callback (when present) with `d` and the gesture state,
then the matching direction-specific callback (when present); a `none`
classification triggers nothing. -/
theorem panResponderEnd_callback_order (props : GestureHandlerProps)
    (s : GestureState) :
    (_getSwipeDirection s = none → _handlePanResponderEnd props s = []) ∧
    (∀ d : SwipeDirections, _getSwipeDirection s = some d →
      _handlePanResponderEnd props s =
        (if props.onSwipe then [CallbackCall.onSwipe d s] else []) ++
          (match d with
            | SwipeDirections.SWIPE_UP =>
                if props.onSwipeUp then [CallbackCall.onSwipeUp s] else []
            | SwipeDirections.SWIPE_DOWN =>
                if props.onSwipeDown then [CallbackCall.onSwipeDown s] else []
            | SwipeDirections.SWIPE_LEFT =>
                if props.onSwipeLeft then [CallbackCall.onSwipeLeft s] else []
            | SwipeDirections.SWIPE_RIGHT =>
                if props.onSwipeRight then [CallbackCall.onSwipeRight s] else [])) := by
  constructor
  · intro h
    simp [_handlePanResponderEnd, h]
  · intro d h
    cases d <;> simp [_handlePanResponderEnd, h, _triggerSwipeHandlers]

/-- Witness for C5: with all callbacks supplied and a valid rightward
swipe, exactly `onSwipe` then `onSwipeRight` fire, in that order. -/
theorem panResponderEnd_callback_order_witness :
    _handlePanResponderEnd allCallbacksProps (mkState 100 10 (1 / 2) 0) =
      [CallbackCall.onSwipe SwipeDirections.SWIPE_RIGHT (mkState 100 10 (1 / 2) 0),
        CallbackCall.onSwipeRight (mkState 100 10 (1 / 2) 0)] := by
  have h := (panResponderEnd_callback_order allCallbacksProps
      (mkState 100 10 (1 / 2) 0)).2 SwipeDirections.SWIPE_RIGHT
    (by norm_num [_getSwipeDirection, _isValidHorizontalSwipe, _isValidVerticalSwipe,
      _isValidSwipe, mkState, defaultSwipeConfig, mathAbs])
  simpa [allCallbacksProps, emptyProps] using h

/-- Claim C7: every threshold comparison is strict.  The shared validity
predicate rejects a velocity whose magnitude exactly equals the velocity
threshold and a cross-axis displacement whose magnitude exactly equals the
offset threshold, for all threshold values; in particular both axis checks
reject gestures sitting exactly on the thresholds they use. -/
theorem isValidSwipe_strict_thresholds :
    (∀ velocity velocityThreshold directionalOffset directionalOffsetThreshold : ℚ,
      |velocity| = velocityThreshold →
        _isValidSwipe velocity velocityThreshold directionalOffset
          directionalOffsetThreshold = false) ∧
    (∀ velocity velocityThreshold directionalOffset directionalOffsetThreshold : ℚ,
      |directionalOffset| = directionalOffsetThreshold →
        _isValidSwipe velocity velocityThreshold directionalOffset
          directionalOffsetThreshold = false) ∧
    (∀ s : GestureState, |s.vx| = defaultSwipeConfig.velocityThreshold →
      _isValidHorizontalSwipe s = false) ∧
    (∀ s : GestureState, |s.vy| = defaultSwipeConfig.velocityThreshold →
      _isValidVerticalSwipe s = false) ∧
    (∀ s : GestureState, |s.dy| = defaultSwipeConfig.directionalOffsetThreshold →
      _isValidHorizontalSwipe s = false) ∧
    (∀ s : GestureState, |s.dx| = defaultSwipeConfig.directionalOffsetThreshold →
      _isValidVerticalSwipe s = false) := by
  refine ⟨?_, ?_, ?_, ?_, ?_, ?_⟩ <;>
    intros <;>
    simp_all [_isValidSwipe, _isValidHorizontalSwipe, _isValidVerticalSwipe,
      mathAbs_eq_abs, lt_irrefl]

/-- Witness for C7: a velocity of exactly `0.3` (the default threshold) and
an offset of exactly `80` are each rejected. -/
theorem isValidSwipe_strict_thresholds_witness :
    _isValidSwipe (3 / 10) (3 / 10) 0 80 = false ∧
      _isValidSwipe 1 (3 / 10) 80 80 = false :=
  ⟨isValidSwipe_strict_thresholds.1 (3 / 10) (3 / 10) 0 80 (by norm_num),
    isValidSwipe_strict_thresholds.2.1 1 (3 / 10) 80 80 (by norm_num)⟩

/-- Claim C9: with the merged configuration requiring vertical scroll, a
displacement `|dy|` strictly beyond `scrollVerticalThreshold` makes the
responder decline to claim, whatever the other props and the event. -/
theorem needVerticalScroll_declines_claim (props : GestureHandlerProps)
    (evt : GestureResponderEvent) (s : GestureState)
    (hconf : (_swipeConfig props).needVerticalScroll = true)
    (hdy : |s.dy| > (_swipeConfig props).scrollVerticalThreshold) :
    _handleShouldSetPanResponder props evt s = false := by
  rcases lt_abs.mp hdy with h | h
  · simp [_handleShouldSetPanResponder, hconf, h]
  · have h' : s.dy < -(_swipeConfig props).scrollVerticalThreshold := by linarith
    simp [_handleShouldSetPanResponder, hconf, h']

/-- Witness for C9: `needVerticalScroll` overridden to true and `dy = 10`
(beyond the default band of `5`) yields a declined claim even though every
other claiming condition could hold. -/
theorem needVerticalScroll_declines_claim_witness :
    _handleShouldSetPanResponder scrollProps oneTouchEvent (mkState 0 10 0 0) = false :=
  needVerticalScroll_declines_claim scrollProps oneTouchEvent (mkState 0 10 0 0)
    (by norm_num [scrollProps, emptyProps, _swipeConfig, mergeConfig, defaultSwipeConfig])
    (by norm_num [scrollProps, emptyProps, _swipeConfig, mergeConfig,
      defaultSwipeConfig, mkState])

/-- Claim C1 (divergence): overriding `velocityThreshold` to `1` leaves the
axis-validity checks unchanged.  At `vx = 0.5, dy = 0` the code's
horizontal validity is still true — it compares against
`defaultSwipeConfig`'s `0.3` — whereas the same comparison against the
merged configuration's thresholds is false. -/
theorem horizontal_validity_ignores_config_override :
    (_swipeConfig velocityOverrideProps).velocityThreshold = 1 ∧
    _isValidHorizontalSwipe (mkState 0 0 (1 / 2) 0) = true ∧
    _isValidSwipe (mkState 0 0 (1 / 2) 0).vx
      (_swipeConfig velocityOverrideProps).velocityThreshold
      (mkState 0 0 (1 / 2) 0).dy
      (_swipeConfig velocityOverrideProps).directionalOffsetThreshold = false := by
  refine ⟨rfl, ?_, ?_⟩ <;>
    norm_num [_isValidHorizontalSwipe, _isValidSwipe, mkState, mathAbs,
      defaultSwipeConfig, _swipeConfig, mergeConfig, velocityOverrideProps, emptyProps]

/-- Claim C2 (counterexample): at `dx=10, dy=100, vx=0.5, vy=0.1` with the
default configuration the classifier does NOT return `SWIPE_RIGHT` —
`|dy| = 100` breaks the `< 80` cross-axis bound, so the horizontal axis is
invalid too. -/
theorem fallback_example_not_swipe_right :
    _getSwipeDirection fallbackState ≠ some SwipeDirections.SWIPE_RIGHT := by
  have h : _getSwipeDirection fallbackState = none := by
    norm_num [fallbackState, _getSwipeDirection, _isValidHorizontalSwipe,
      _isValidVerticalSwipe, _isValidSwipe, mkState, defaultSwipeConfig, mathAbs]
  simp [h]

/-- Claim C2 (amended): at `dx=10, dy=100, vx=0.5, vy=0.1` with the default
configuration the classifier returns none — the dominant vertical axis
fails the velocity threshold and the horizontal axis fails the cross-axis
offset bound. -/
theorem fallback_example_returns_none :
    _getSwipeDirection fallbackState = none := by
  norm_num [fallbackState, _getSwipeDirection, _isValidHorizontalSwipe,
    _isValidVerticalSwipe, _isValidSwipe, mkState, defaultSwipeConfig, mathAbs]

/-- Claim C3 (divergence): with no `swipeEnabled` prop supplied the merged
configuration still says `swipeEnabled = true`, the event has exactly one
touch, the gesture is not a click and no vertical scroll is required — yet
the responder declines, because the code tests `!!props.swipeEnabled`
(undefined, hence false) instead of the merged configuration. -/
theorem shouldClaim_false_without_swipeEnabled_prop :
    emptyProps.swipeEnabled = none ∧
    (_swipeConfig emptyProps).swipeEnabled = true ∧
    (_swipeConfig emptyProps).needVerticalScroll = false ∧
    oneTouchEvent.nativeEvent.touches.length = 1 ∧
    _gestureIsClick emptyProps swipeState = false ∧
    _handleShouldSetPanResponder emptyProps oneTouchEvent swipeState = false := by
  refine ⟨rfl, rfl, rfl, rfl, ?_, ?_⟩ <;>
    norm_num [_gestureIsClick, _handleShouldSetPanResponder, swipeState, mkState,
      mathAbs, _swipeConfig, mergeConfig, defaultSwipeConfig, emptyProps, oneTouchEvent]

/-- Claim C6 (counterexample): a state whose `dx` is NaN but whose
horizontal axis is otherwise a valid swipe is still classified — the code
returns `SWIPE_LEFT` (the `dx > 0` test is false on NaN), not none. -/
theorem nan_dx_still_classifies :
    nanDxState.dx = none ∧
      jsGetSwipeDirection nanDxState = some SwipeDirections.SWIPE_LEFT := by
  constructor
  · rfl
  · norm_num [jsGetSwipeDirection, jsIsValidHorizontalSwipe, jsIsValidVerticalSwipe,
      jsIsValidSwipe, nanDxState, jsMkState, defaultSwipeConfig, jsAbs, jsGt, jsLt, mathAbs]

/-- Claim C6 (amended): the classifier is total, and when both velocities
are NaN every comparison involving them is false, so both axes are invalid,
the classifier returns none, and no callback fires. -/
theorem nan_velocities_yield_none (s : JSGestureState)
    (hvx : s.vx = none) (hvy : s.vy = none) :
    jsGetSwipeDirection s = none ∧
      ∀ props : GestureHandlerProps, jsHandlePanResponderEnd props s = [] := by
  have hH : jsIsValidHorizontalSwipe s = false := by
    simp [jsIsValidHorizontalSwipe, jsIsValidSwipe, hvx, jsAbs, jsGt]
  have hV : jsIsValidVerticalSwipe s = false := by
    simp [jsIsValidVerticalSwipe, jsIsValidSwipe, hvy, jsAbs, jsGt]
  have hdir : jsGetSwipeDirection s = none := by
    simp [jsGetSwipeDirection, hH, hV]
  exact ⟨hdir, fun props => by simp [jsHandlePanResponderEnd, hdir]⟩

/-- Witness for the amended C6: with every field NaN the classifier returns
none and, with all callbacks supplied, none of them fires. -/
theorem nan_velocities_yield_none_witness :
    jsGetSwipeDirection (jsMkState none none none none) = none ∧
      jsHandlePanResponderEnd allCallbacksProps (jsMkState none none none none) = [] := by
  have h := nan_velocities_yield_none (jsMkState none none none none) rfl rfl
  exact ⟨h.1, h.2 allCallbacksProps⟩
